import Mathlib

/-!
Shallow embedding of the MH-RC-WMP-1 device driver (src/accessories/MHRCWMP1.ts,
WMP revision) and proofs about its specification claims.

JS numbers are modelled as rationals; JS objects used as string-keyed maps are
modelled as insertion-ordered association lists; undefined property reads are
modelled as Option.none; async control flow is modelled by explicit outcome
parameters and event-loop style step functions.
-/

set_option autoImplicit false

namespace MHRCWMP1Spec

/-- Normalized attribute values are JS numbers; modelled as rationals. -/
abbrev Value := ℚ

/-- A JS object used as a map from attribute names to values, in insertion order. -/
abbrev StateMap := List (String × Value)

/-- Property read on a JS object: the value at the key, or none for undefined. -/
def lookupA : StateMap → String → Option Value
  | [], _ => none
  | (k2, v) :: rest, k => if k2 = k then some v else lookupA rest k

/-- Property assignment on a JS object: overwrite in place when the key exists,
append otherwise (JS objects keep insertion order). -/
def insertA : StateMap → String → Value → StateMap
  | [], k, v => [(k, v)]
  | (k2, v2) :: rest, k, v =>
    if k2 = k then (k2, v) :: rest else (k2, v2) :: insertA rest k v

/-- One entry of the SensorConfigMap table (lines 553-698 of the source).

The values label tables of the source are never read on any executed code path of
this revision (parseState and setState consult only attr, uid and the xform
functions), so they are not part of the embedding.  The toVal functions of uid 2
(mode) and uid 5 (vaneud) return strings and are used only inside a debug log
line in setState, so they are likewise omitted; their fromVal functions compare
the incoming number against string constants, comparisons that are always false
for a numeric input, so on the Value domain mode falls to its default branch 0
and vaneud falls through to the identity. -/
structure SensorDesc where
  uid : Nat
  attr : Option String := none
  fromVal : Option (Value → Value) := none
  toVal : Option (Value → Value) := none

/-- The static sensor descriptor table of the source (lines 553-698). -/
def SensorConfigMap : List SensorDesc := [
  { uid := 1, attr := some "onoff" },
  { uid := 2, attr := some "mode",
    fromVal := some (fun _v => 0) },
  { uid := 4, attr := some "fansp" },
  { uid := 5, attr := some "vaneud",
    fromVal := some (fun v => v) },
  { uid := 9, attr := some "setptemp",
    fromVal := some (fun v => if v = 32768 then 28 else v / 10),
    toVal := some (fun v => v * 10) },
  { uid := 10, attr := some "ambtemp",
    fromVal := some (fun v => v / 10) },
  { uid := 12, attr := some "remoteDisable" },
  { uid := 13, attr := some "onTime" },
  { uid := 14, attr := some "alarmStatus" },
  { uid := 15, attr := some "errorCode" },
  { uid := 34, attr := some "quietMode" },
  { uid := 35, attr := some "minSetpoint",
    toVal := some (fun v => v * 10),
    fromVal := some (fun v => v / 10) },
  { uid := 36, attr := some "maxSetpoint",
    toVal := some (fun v => v * 10),
    fromVal := some (fun v => v / 10) },
  { uid := 37, attr := some "outdoorTemperature",
    fromVal := some (fun v => v / 10) },
  { uid := 181 },
  { uid := 182 },
  { uid := 183 },
  { uid := 184 }]

/-- The decode-direction index built by the buildSensorMap method: register id to
descriptor (sensorMap of the source keyed by uid). -/
def sensorMapUid (uid : Nat) : Option SensorDesc :=
  SensorConfigMap.find? (fun d => d.uid == uid)

/-- The encode-direction index built by the buildSensorMap method: attribute name
to descriptor (sensorMap of the source keyed by attr). -/
def sensorMapAttr (a : String) : Option SensorDesc :=
  SensorConfigMap.find? (fun d => d.attr == some a)

/-- The xform application idiom of the source in the decode direction:
map.xform when present, identity otherwise. -/
def applyFromVal (d : SensorDesc) (v : Value) : Value :=
  match d.fromVal with
  | some f => f v
  | none => v

/-- The xform application idiom of the source in the encode direction. -/
def applyToVal (d : SensorDesc) (v : Value) : Value :=
  match d.toVal with
  | some f => f v
  | none => v

/-- Decode a raw register value through the descriptor table (identity when the
register is unknown or carries no transform). -/
def decodeUid (uid : Nat) (v : Value) : Value :=
  match sensorMapUid uid with
  | some d => applyFromVal d v
  | none => v

/-- Encode a normalized value through the descriptor table. -/
def encodeUid (uid : Nat) (v : Value) : Value :=
  match sensorMapUid uid with
  | some d => applyToVal d v
  | none => v

/-- A decoded register report, as delivered to parseState: the SensorType shape
uid plus value. -/
structure SensorItem where
  uid : Nat
  value : Value
deriving DecidableEq

/-- The state-merge loop of parseState (lines 230-241): each reported register is
looked up in the sensor map; unknown registers are logged and skipped, registers
without an attribute are skipped, the rest are transformed and written into the
state snapshot. -/
def parseStateMerge (state : StateMap) (sensors : List SensorItem) : StateMap :=
  sensors.foldl (fun st item =>
    match sensorMapUid item.uid with
    | none => st
    | some map =>
      match map.attr with
      | none => st
      | some a => insertA st a (applyFromVal map item.value)) state

/-- A per-attribute changed notification: attribute name, previous value
(none for undefined) and new value, as emitted on the EVENT_CHANGED channel. -/
structure ChangeEvent where
  attr : String
  oldVal : Option Value
  newVal : Value
deriving DecidableEq

/-- checkForChange (lines 252-265): walk the keys of the current state in order;
whenever the current value differs from the previous one (JS loose inequality,
which is true against undefined), emit a changed notification carrying the old
and new values and copy the new value into previousState.  Results: the changed
notifications in emission order, the updated previousState, and whether a single
deferred EVENT_UPDATED emission was scheduled (setTimeout 0). -/
def checkForChange : StateMap → StateMap → List ChangeEvent × StateMap × Bool
  | [], prev => ([], prev, false)
  | (attr, v) :: rest, prev =>
    if some v ≠ lookupA prev attr then
      let r := checkForChange rest (insertA prev attr v)
      (⟨attr, lookupA prev attr, v⟩ :: r.1, r.2.1, true)
    else
      checkForChange rest prev

/-- parseState (lines 230-243): merge the reported registers, then run change
detection against previousState. -/
def parseState (state prev : StateMap) (sensors : List SensorItem) :
    StateMap × (List ChangeEvent × StateMap × Bool) :=
  let st2 := parseStateMerge state sensors
  (st2, checkForChange st2 prev)

/-- A write command built by setState.  The limits constructor models the wire
line LIMITS:SETPTEMP with the raw pair minRaw, maxRaw; setCmd models the wire
line SET on channel 1 with an attribute and a value.  A raw payload is an
Option Value: none models the NaN a bound read from the state snapshot yields
when that bound is undefined there. -/
inductive WireCommand where
  | limits (minRaw maxRaw : Option Value)
  | setCmd (attr : String) (value : Value)
deriving DecidableEq

/-- Encode a normalized value for an attribute through the encode-direction
sensor map, the map.xform idiom of setState (line 275).  All setState call
sites pass attributes present in the table. -/
def encodeAttr (attr : String) (v : Value) : Value :=
  match sensorMapAttr attr with
  | some d => applyToVal d v
  | none => v

/-- The command construction of setState (lines 277-288).  Setting either
setpoint bound builds one combined limits command whose other bound is read
from the current state snapshot at encode time and passed through its own
encode transform; every other attribute builds a plain SET command which
interpolates the caller value (the source interpolates value, not the encoded
xvalue, in that branch). -/
def setStateCommand (state : StateMap) (attr : String) (value : Value) : WireCommand :=
  if attr = "maxSetpoint" then
    .limits ((lookupA state "minSetpoint").map (encodeAttr "minSetpoint"))
      (some (encodeAttr "maxSetpoint" value))
  else if attr = "minSetpoint" then
    .limits (some (encodeAttr "minSetpoint" value))
      ((lookupA state "maxSetpoint").map (encodeAttr "maxSetpoint"))
  else
    .setCmd attr value

/-- Outcome of the awaited ACK correlation inside setState. -/
inductive AckOutcome where
  | ack
  | timeout
deriving DecidableEq

/-- The snapshot-owning part of the driver object: current state, previous
state, and the log of commands handed to the transport in send order. -/
structure Engine where
  state : StateMap
  previousState : StateMap
  wire : List WireCommand
deriving DecidableEq

/-- setState (lines 273-298): build one command from the current snapshot, send
it, then await the ACK; an ACK timeout is caught and logged.  The local state
assignment and the checkForChange call that would follow are commented out in
the source, so both snapshot generations are returned unchanged on either
outcome. -/
def setState (e : Engine) (attr : String) (value : Value) (ao : AckOutcome) : Engine :=
  let e1 := { e with wire := e.wire ++ [setStateCommand e.state attr value] }
  match ao with
  | .ack => e1
  | .timeout => e1

/-- The set.minSetpoint mutator (lines 104-106). -/
def setMinSetpoint (e : Engine) (v : Value) (ao : AckOutcome) : Engine :=
  setState e "minSetpoint" v ao

/-- The set.maxSetpoint mutator (lines 101-103). -/
def setMaxSetpoint (e : Engine) (v : Value) (ao : AckOutcome) : Engine :=
  setState e "maxSetpoint" v ao

/-- Outcome of the awaited HTTP request inside the second revision of
setState. -/
inductive HttpOutcome where
  | resolved
  | rejected
deriving DecidableEq

/-- setState of the second revision of the source file (lines 1023-1030): the
encoded value is sent as an HTTP setdatapointvalue request (whose descriptor
table lives in the device module, outside these sources; the payload does not
touch the snapshot); when the request resolves, the caller value is
optimistically assigned into the local snapshot in place and checkForChange
runs immediately, emitting its notifications; when the request rejects, the
await throws out of the handler before the assignment.  Results on the
resolved path: the engine with both snapshot generations updated, plus the
changed notifications emitted. -/
def setStateRev2 (e : Engine) (attr : String) (value : Value) (r : HttpOutcome) :
    Except Unit (Engine × List ChangeEvent) :=
  match r with
  | .rejected => .error ()
  | .resolved =>
    let st2 := insertA e.state attr value
    let cc := checkForChange st2 e.previousState
    .ok ({ e with state := st2, previousState := cc.2.1 }, cc.1)

/-- The get.valid accessor (line 84): typeof state.active is not undefined. -/
def valid (state : StateMap) : Bool :=
  (lookupA state "active").isSome

/-- Constructor configuration values (lines 39-48) with their defaults. -/
structure Config where
  slowThreshold : Nat := 500
  minSetpoint : Value := 18
  maxSetpoint : Value := 30
  syncPeriod : Nat := 1000

/-- The clamping the constructor applies (lines 50-59): the minimum setpoint is
at least 18, the maximum at most 30, a falsy slow threshold falls back to 500,
and the sync period is at least 1000 ms. -/
def clampConfig (c : Config) : Config :=
  { c with
    minSetpoint := max 18 c.minSetpoint,
    maxSetpoint := min 30 c.maxSetpoint,
    slowThreshold := if c.slowThreshold = 0 then 500 else c.slowThreshold,
    syncPeriod := max 1000 c.syncPeriod }

/-- The state snapshot as seeded by the constructor (lines 51 and 54). -/
def initialState (c : Config) : StateMap :=
  insertA (insertA [] "minSetpoint" (clampConfig c).minSetpoint)
    "maxSetpoint" (clampConfig c).maxSetpoint

/-- The synchronizer-owned mutable fields: the initial-sync flag and the two
state generations. -/
structure SyncMachine where
  isInitialSynced : Bool
  state : StateMap
  previousState : StateMap
deriving DecidableEq

/-- resetState (lines 219-223): drop the initial-sync flag and clear both state
generations. -/
def resetState : SyncMachine :=
  { isInitialSynced := false, state := [], previousState := [] }

/-- Whether the synchronous sendGET at the top of refreshState threw (for
example on a torn-down socket) before the awaited dump. -/
inductive SendResult where
  | ok
  | errThrown
deriving DecidableEq

/-- Outcome of the awaited wait for the onCHNUpd event inside refreshState. -/
inductive PollEvent where
  | chnUpd
  | timeout
deriving DecidableEq

/-- refreshState (lines 162-170): sendGET may throw synchronously and reject
the returned promise, but the awaited dump wait sits inside try/catch, so its
timeout is logged and swallowed and refreshState resolves normally. -/
def refreshStateResult : SendResult → PollEvent → Except Unit Unit
  | .errThrown, _ => .error ()
  | .ok, .chnUpd => .ok ()
  | .ok, .timeout => .ok ()

/-- The initial-sync branch of syncState (lines 176-194): clear both state
generations, mark the initial sync done, seed the configured bounds into the
snapshot, then push the configured limits pair to the device through the two
set calls.  Returns the machine and the commands sent. -/
def initialSync (c : Config) (m : SyncMachine) : SyncMachine × List WireCommand :=
  if m.isInitialSynced then (m, [])
  else
    let cc := clampConfig c
    let st0 := insertA (insertA [] "minSetpoint" cc.minSetpoint) "maxSetpoint" cc.maxSetpoint
    let cmd1 := setStateCommand st0 "minSetpoint" cc.minSetpoint
    let cmd2 := setStateCommand st0 "maxSetpoint" cc.maxSetpoint
    ({ isInitialSynced := true, state := st0, previousState := [] }, [cmd1, cmd2])

/-- What one syncState cycle produces: the machine afterwards, the commands sent,
the changed notifications emitted, and the delay at which the next cycle was
scheduled. -/
structure CycleResult where
  machine : SyncMachine
  commands : List WireCommand
  events : List ChangeEvent
  delay : Nat
deriving DecidableEq

/-- One syncState cycle (lines 175-214): run the initial-sync branch when
needed, then refresh; on a resolved refresh run change detection, on a rejected
refresh run resetState; in either case schedule the next cycle at the
configured period. -/
def syncStateCycle (c : Config) (m : SyncMachine) (send : SendResult) (poll : PollEvent) :
    CycleResult :=
  let im := initialSync c m
  let delay := (clampConfig c).syncPeriod
  match refreshStateResult send poll with
  | .ok _ =>
    let r := checkForChange im.1.state im.1.previousState
    ⟨{ im.1 with previousState := r.2.1 }, im.2, r.1, delay⟩
  | .error _ => ⟨resetState, im.2, [], delay⟩

/-- Outcome with which one waitForEvent promise settles. -/
inductive WaitOutcome where
  | value
  | errored
  | timedOut
deriving DecidableEq

/-- The subscription and timer footprint of one waitForEvent call together with
its promise settlement. -/
structure WaitState where
  eventSub : Bool
  errorSub : Bool
  timerActive : Bool
  settled : Option WaitOutcome
deriving DecidableEq

/-- waitForEvent right after registration (lines 400-415): the timer armed and
both once-subscriptions installed, the promise pending. -/
def waitInit : WaitState :=
  { eventSub := true, errorSub := true, timerActive := true, settled := none }

/-- A promise settles at most once; resolve and reject on a settled promise are
no-ops. -/
def settleOnce (s : Option WaitOutcome) (o : WaitOutcome) : Option WaitOutcome :=
  match s with
  | none => some o
  | some p => some p

/-- One of the three completion sources of waitForEvent firing. -/
inductive Fire where
  | ev
  | er
  | tm
deriving DecidableEq

/-- What each completion source leaves behind when it fires (lines 398-417).
The success handler is a once-subscription (removed by firing), removes the
error subscription and clears the timer before resolving; the fail handler is a
once-subscription, removes the event subscription and clears the timer before
rejecting; the timer callback only rejects and removes neither subscription.
A source only fires while it is still subscribed or armed. -/
def fireStep (s : WaitState) : Fire → WaitState
  | .ev =>
    if s.eventSub then
      { eventSub := false, errorSub := false, timerActive := false,
        settled := settleOnce s.settled .value }
    else s
  | .er =>
    if s.errorSub then
      { eventSub := false, errorSub := false, timerActive := false,
        settled := settleOnce s.settled .errored }
    else s
  | .tm =>
    if s.timerActive then
      { s with timerActive := false, settled := settleOnce s.settled .timedOut }
    else s

/-- Process a sequence of source firings in order. -/
def runFires (s : WaitState) (fs : List Fire) : WaitState :=
  fs.foldl fireStep s

/-- The settlement each source produces when it is the first to fire. -/
def outcomeOf : Fire → WaitOutcome
  | .ev => .value
  | .er => .errored
  | .tm => .timedOut

/-- The default timeoutMS of waitForEvent (line 398), used by the ACK wait of
setState. -/
def ACK_TIMEOUT : Nat := 10000

/-- Event-loop view of the write path.  A set mutator (lines 91-120) invokes
setState without awaiting it, and setState synchronously hands its command to
the transport (line 289) before suspending on the ACK wait (line 292), so every
submission reaches the wire at submission time; pending records the ACK timers
of the writes still awaiting acknowledgment. -/
structure TimedEngine where
  now : Nat
  state : StateMap
  wire : List (Nat × WireCommand)
  pending : List (Nat × Nat)
  nextId : Nat
deriving DecidableEq

/-- Submitting one write through a set mutator: the command is sent immediately
and an ACK wait with its own timer is registered; the snapshot is untouched. -/
def submitWrite (e : TimedEngine) (w : String × Value) : TimedEngine :=
  { e with
    wire := e.wire ++ [(e.now, setStateCommand e.state w.1 w.2)],
    pending := e.pending ++ [(e.nextId, e.now + ACK_TIMEOUT)],
    nextId := e.nextId + 1 }

/-- Submitting a batch of writes back to back within one turn. -/
def submitAll (e : TimedEngine) (ws : List (String × Value)) : TimedEngine :=
  ws.foldl submitWrite e

/-- With a transport that never acknowledges, each pending ACK wait rejects
exactly when its timer fires; the time by which every submitted write has
completed (by timeout). -/
def lastCompletionNoAck (e : TimedEngine) : Nat :=
  (e.pending.map Prod.snd).foldr max 0

/-- A freshly constructed driver engine at time zero with the default
configuration. -/
def engine0 : TimedEngine :=
  { now := 0, state := initialState {}, wire := [], pending := [], nextId := 0 }

/-- The transport handle: its object identity, the host it was constructed
for, the single socket slot it owns (socketGen counts how many times connect
has filled that slot), and whether the keepalive ping timer is running. -/
structure ConnectHandle where
  hid : Nat
  host : String
  socketGen : Nat
  pingTimer : Bool
deriving DecidableEq

/-- connect (lines 481-488): open a socket into the single slot of this same
handle, replacing whatever the slot held. -/
def connect (h : ConnectHandle) : ConnectHandle :=
  { h with socketGen := h.socketGen + 1 }

/-- The private constructor (lines 446-452): fresh object identity, then an
immediate connect. -/
def newConnect (freshId : Nat) (host : String) : ConnectHandle :=
  connect { hid := freshId, host := host, socketGen := 0, pingTimer := false }

/-- getInstance (lines 454-459): return the registered instance when one
exists, construct and register one otherwise.  Result: the handle handed to
the caller and the registry afterwards. -/
def getInstance (registry : Option ConnectHandle) (host : String) (freshId : Nat) :
    ConnectHandle × Option ConnectHandle :=
  match registry with
  | some h => (h, some h)
  | none =>
    let h := newConnect freshId host
    (h, some h)

/-- onSocketClose (lines 543-549): cancel the keepalive timer and, after the
five second delay, reconnect the same handle; the closed socket slot is
replaced in place, never duplicated. -/
def onSocketClose (h : ConnectHandle) : ConnectHandle :=
  connect { h with pingTimer := false }

/-- A JS runtime error raised by a handler. -/
inductive JsError where
  | typeError
deriving DecidableEq

/-- The channel-update record onCHN tries to build. -/
structure ChnData where
  uid : Nat
  value : Value
deriving DecidableEq

/-- The property read sensorMap at the lowercased name followed by .uid: reading
a property of an undefined lookup result raises TypeError. -/
def jsReadUid (o : Option SensorDesc) : Except JsError Nat :=
  match o with
  | none => .error .typeError
  | some d => .ok d.uid

/-- The property assignment chnData.uid on a possibly-undefined object:
assigning a property of undefined raises TypeError. -/
def jsAssignUid (o : Option ChnData) (uid : Nat) : Except JsError ChnData :=
  match o with
  | none => .error .typeError
  | some c => .ok { c with uid := uid }

/-- onCHN (lines 344-395): the handler declares chnData without initializing it
(so it is undefined), reads the uid of the lowercased channel name from the
sensor map, then assigns chnData.uid, which raises TypeError because chnData is
undefined.  Everything below that assignment, including the logging branches,
the onCHNUpd emission and the parseState call, is unreachable; had execution
arrived at parseState it would have been handed the single chnData record where
parseState iterates an array, another TypeError (modelled by the final error).
On the error path the machine and its snapshots are untouched and no change
notification is produced. -/
def onCHN (m : SyncMachine) (name : String) (value : Value) :
    Except JsError (SyncMachine × List ChangeEvent) :=
  match jsReadUid (sensorMapAttr name.toLower) with
  | .error e => .error e
  | .ok uid =>
    match jsAssignUid none uid with
    | .error e => .error e
    | .ok chnData0 =>
      let _chnData1 := { chnData0 with value := value }
      .error .typeError

/-- A synced machine with a populated snapshot, for concrete cycle runs. -/
def syncedMachine : SyncMachine :=
  { isInitialSynced := true, state := [("onoff", 1)], previousState := [("onoff", 1)] }

/-- A concrete full-register dump as a poll cycle would decode it. -/
def fullDump : List SensorItem :=
  [⟨1, 1⟩, ⟨2, 4⟩, ⟨4, 2⟩, ⟨9, 215⟩, ⟨10, 221⟩, ⟨35, 180⟩, ⟨36, 300⟩, ⟨37, 183⟩]

/-!
Theorems.  Helper lemmas come first, then one theorem per specification claim
(with its witness or counterexample where applicable).
-/

theorem lookupA_insertA_self (m : StateMap) (k : String) (v : Value) :
    lookupA (insertA m k v) k = some v := by
  induction m with
  | nil => simp [insertA, lookupA]
  | cons p rest ih =>
    by_cases h : p.1 = k
    · simp [insertA, lookupA, h]
    · simp [insertA, lookupA, h, ih]

theorem lookupA_insertA_ne (m : StateMap) (k k2 : String) (v : Value) (h : k2 ≠ k) :
    lookupA (insertA m k v) k2 = lookupA m k2 := by
  have hk : ¬ k = k2 := fun hk => h hk.symm
  induction m with
  | nil => simp [insertA, lookupA, hk]
  | cons p rest ih =>
    by_cases hp : p.1 = k
    · simp [insertA, lookupA, hp, hk]
    · simp [insertA, lookupA, hp, ih]

theorem encodeAttr_minSetpoint (x : Value) : encodeAttr "minSetpoint" x = x * 10 := rfl

theorem encodeAttr_maxSetpoint (x : Value) : encodeAttr "maxSetpoint" x = x * 10 := rfl

/-- C3: for every call to set.minSetpoint(v) or set.maxSetpoint(v), exactly one
combined range-limit wire command LIMITS:SETPTEMP,[minRaw,maxRaw] is emitted,
carrying the encoded new bound together with the latest known value of the
other bound read from the current state snapshot at encode time, both encoded
by the times-ten transform. -/
theorem c3_limits_pair_command (e : Engine) (v mn mx : Value) (ao : AckOutcome)
    (hmin : lookupA e.state "minSetpoint" = some mn)
    (hmax : lookupA e.state "maxSetpoint" = some mx) :
    (setMaxSetpoint e v ao).wire
      = e.wire ++ [.limits (some (mn * 10)) (some (v * 10))] ∧
    (setMinSetpoint e v ao).wire
      = e.wire ++ [.limits (some (v * 10)) (some (mx * 10))] := by
  constructor <;> cases ao <;>
    simp [setMaxSetpoint, setMinSetpoint, setState, setStateCommand, hmin, hmax,
      encodeAttr_minSetpoint, encodeAttr_maxSetpoint]

/-- Witness for C3 at a concrete engine: the freshly constructed default
snapshot holds both bounds, and setting the maximum to 25 emits the single
combined limits command with the stored minimum. -/
theorem c3_limits_pair_witness :
    lookupA (Engine.state ⟨initialState {}, [], []⟩) "minSetpoint" = some 18 ∧
    lookupA (Engine.state ⟨initialState {}, [], []⟩) "maxSetpoint" = some 30 ∧
    (setMaxSetpoint ⟨initialState {}, [], []⟩ 25 .ack).wire
      = [.limits (some (18 * 10)) (some (25 * 10))] ∧
    (setMinSetpoint ⟨initialState {}, [], []⟩ 25 .ack).wire
      = [.limits (some (25 * 10)) (some (30 * 10))] :=
  ⟨by decide, by decide,
    (c3_limits_pair_command ⟨initialState {}, [], []⟩ 25 18 30 .ack
      (by decide) (by decide)).1,
    (c3_limits_pair_command ⟨initialState {}, [], []⟩ 25 18 30 .ack
      (by decide) (by decide)).2⟩

/-- C4 counterexample: a write executed through the second revision of
setState does change the local snapshot when the request is acknowledged: from
an empty snapshot, an acknowledged write of 22 to setpoint leaves the written
value in both snapshot generations and emits a change notification, against
the claim that every write through setState leaves the snapshot unchanged. -/
theorem c4_optimistic_update_counterexample :
    setStateRev2 ⟨[], [], []⟩ "setpoint" 22 .resolved
      = .ok (⟨[("setpoint", 22)], [("setpoint", 22)], []⟩, [⟨"setpoint", none, 22⟩]) ∧
    ([("setpoint", 22)] : StateMap) ≠ ([] : StateMap) :=
  ⟨rfl, by decide⟩

/-- C4 amended: a write executed through the WMP revision of setState leaves
both local snapshot generations unchanged whatever the acknowledgment outcome,
and the written value reaches the snapshot only when a later poll cycle
reports the corresponding register (shown for the setpoint register uid 9,
whose reported raw value is decoded and merged by parseState); a write
executed through the second revision of setState instead optimistically
assigns the caller value into the snapshot as soon as the request resolves. -/
theorem c4_revision_split :
    (∀ (e : Engine) (attr : String) (v : Value) (ao : AckOutcome),
      (setState e attr v ao).state = e.state ∧
      (setState e attr v ao).previousState = e.previousState) ∧
    (∀ (st : StateMap) (x : Value),
      lookupA (parseStateMerge st [⟨9, x⟩]) "setptemp"
        = some (if x = 32768 then 28 else x / 10)) ∧
    (∀ (e : Engine) (attr : String) (v : Value),
      (setStateRev2 e attr v .resolved).map (fun r => lookupA r.1.state attr)
        = .ok (some v)) := by
  refine ⟨?_, ?_, ?_⟩
  · intro e attr v ao
    cases ao <;> exact ⟨rfl, rfl⟩
  · intro st x
    have h : parseStateMerge st [⟨9, x⟩]
        = insertA st "setptemp" (if x = 32768 then 28 else x / 10) := rfl
    rw [h, lookupA_insertA_self]
  · intro e attr v
    simp [setStateRev2, Except.map, lookupA_insertA_self]

/-- C7 counterexample: at the setpoint register uid 9 the raw sentinel 32768 is
an integral raw value on which the claimed round trip fails, because decode
maps it to 28 and encode multiplies back to 280, not 32768. -/
theorem c7_sentinel_counterexample :
    encodeUid 9 (decodeUid 9 32768) = 280 ∧ ((280 : Value) = 32768 → False) := by
  have hd : decodeUid 9 (32768 : Value) = 28 := rfl
  have he : ∀ y : Value, encodeUid 9 y = y * 10 := fun _ => rfl
  refine ⟨?_, ?_⟩
  · rw [hd, he]
    norm_num
  · intro h
    norm_num at h

/-- C7 amended: the decode-encode round trip on the temperature registers holds
for every raw value on the bound registers uids 35 and 36, and on the setpoint
register uid 9 for every raw value other than the sentinel 32768, which
instead decodes to 28. -/
theorem c7_roundtrip (x : Value) :
    (x ≠ 32768 → encodeUid 9 (decodeUid 9 x) = x) ∧
    encodeUid 35 (decodeUid 35 x) = x ∧
    encodeUid 36 (decodeUid 36 x) = x ∧
    decodeUid 9 (32768 : Value) = 28 := by
  have h9d : decodeUid 9 x = if x = 32768 then 28 else x / 10 := rfl
  have h9e : ∀ y : Value, encodeUid 9 y = y * 10 := fun _ => rfl
  have h35d : decodeUid 35 x = x / 10 := rfl
  have h35e : ∀ y : Value, encodeUid 35 y = y * 10 := fun _ => rfl
  have h36d : decodeUid 36 x = x / 10 := rfl
  have h36e : ∀ y : Value, encodeUid 36 y = y * 10 := fun _ => rfl
  refine ⟨fun hx => ?_, ?_, ?_, rfl⟩
  · rw [h9e, h9d, if_neg hx]
    exact div_mul_cancel₀ x (by norm_num)
  · rw [h35e, h35d]
    exact div_mul_cancel₀ x (by norm_num)
  · rw [h36e, h36d]
    exact div_mul_cancel₀ x (by norm_num)

/-- Witness for C7 amended at the raw value 215 (21.5 degrees in tenths). -/
theorem c7_roundtrip_witness :
    (215 : Value) ≠ 32768 ∧ encodeUid 9 (decodeUid 9 215) = 215 ∧
    encodeUid 35 (decodeUid 35 215) = 215 :=
  ⟨by decide, (c7_roundtrip 215).1 (by decide), (c7_roundtrip 215).2.1⟩

/-- C8 (code bug): valid() tests state.active, but a poll cycle that decodes
and merges the full register dump stores the power register uid 1 under the
attribute onoff, so valid() still returns false after a populating cycle; it
is false before any cycle as claimed, yet can never become true. -/
theorem c8_valid_never_true :
    valid (initialState {}) = false ∧
    valid (parseStateMerge (initialState {}) fullDump) = false ∧
    lookupA (parseStateMerge (initialState {}) fullDump) "onoff" = some 1 := by
  refine ⟨by decide, by decide, by decide⟩

/-- C9: repeated construction requests through getInstance return the already
registered transport instance and leave the registry unchanged, and the
reconnect performed after a socket close mutates the socket slot of the very
same handle object, preserving its identity and host rather than creating a
second handle. -/
theorem c9_singleton_transport :
    (∀ (h : ConnectHandle) (host : String) (freshId : Nat),
      getInstance (some h) host freshId = (h, some h)) ∧
    (∀ h : ConnectHandle,
      (onSocketClose h).hid = h.hid ∧ (onSocketClose h).host = h.host ∧
      (onSocketClose h).socketGen = h.socketGen + 1) :=
  ⟨fun _ _ _ => rfl, fun _ => ⟨rfl, rfl, rfl⟩⟩

/-- C10: every channel-update delivered to onCHN raises TypeError before any
update is merged, because the handler assigns a property of the uninitialized
chnData; consequently no channel update is ever applied to the state snapshot
and no change notification is produced. -/
theorem c10_onchn_typeerror (m : SyncMachine) (name : String) (value : Value) :
    onCHN m name value = .error .typeError := by
  cases h : jsReadUid (sensorMapAttr name.toLower) with
  | error e => cases e; simp [onCHN, h]
  | ok uid => simp [onCHN, h, jsAssignUid]

/-- C1 counterexample: three writes submitted while the transport never
acknowledges are all handed to the wire at submission time 0 (overlapping, not
buffered), and every one of them completes by timeout at 10000 ms, so the total
elapsed time is one ACK timeout: the claimed lower bound of three times the
per-write timeout is false. -/
theorem c1_no_queue_counterexample :
    ((submitAll engine0 [("onoff", 1), ("setptemp", 21), ("fansp", 2)]).wire.map Prod.fst
      = [0, 0, 0]) ∧
    lastCompletionNoAck (submitAll engine0 [("onoff", 1), ("setptemp", 21), ("fansp", 2)])
      = ACK_TIMEOUT ∧
    ((3 * ACK_TIMEOUT
      ≤ lastCompletionNoAck (submitAll engine0 [("onoff", 1), ("setptemp", 21), ("fansp", 2)])
        - engine0.now) → False) := by
  refine ⟨by decide, by decide, by decide⟩

/-- C1 amended: the set mutators perform no queueing: every write in a batch is
sent to the transport immediately at submission time, in submission order, even
while earlier writes still await their acknowledgments, and each write fails
independently one ACK timeout after its submission when the transport never
acknowledges; the snapshot and the clock are untouched by submission. -/
theorem c1_unqueued_writes (e : TimedEngine) (ws : List (String × Value)) :
    (submitAll e ws).wire
      = e.wire ++ ws.map (fun w => (e.now, setStateCommand e.state w.1 w.2)) ∧
    (submitAll e ws).pending.map Prod.snd
      = e.pending.map Prod.snd ++ ws.map (fun _ => e.now + ACK_TIMEOUT) ∧
    (submitAll e ws).now = e.now ∧
    (submitAll e ws).state = e.state := by
  induction ws generalizing e with
  | nil => simp [submitAll]
  | cons w rest ih =>
    obtain ⟨h1, h2, h3, h4⟩ := ih (submitWrite e w)
    have hstep : submitAll e (w :: rest) = submitAll (submitWrite e w) rest := rfl
    rw [hstep]
    refine ⟨?_, ?_, ?_, ?_⟩
    · rw [h1]
      simp [submitWrite, List.append_assoc]
    · rw [h2]
      simp [submitWrite, List.append_assoc]
    · rw [h3]
      rfl
    · rw [h4]
      rfl

/-- C2 counterexample: a poll cycle in which the full-register dump wait times
out does not reset the synchronizer: refreshState swallows the timeout, the
cycle takes the success path, and both state generations survive intact while
the claim requires a full Reset. -/
theorem c2_poll_timeout_no_reset_counterexample :
    (syncStateCycle {} syncedMachine .ok .timeout).machine = syncedMachine ∧
    ((syncStateCycle {} syncedMachine .ok .timeout).machine = resetState → False) ∧
    (syncStateCycle {} syncedMachine .ok .timeout).machine.state ≠ [] := by
  refine ⟨by decide, by decide, by decide⟩

theorem initialSync_synced (c : Config) (m : SyncMachine) :
    (initialSync c m).1.isInitialSynced = true := by
  by_cases h : m.isInitialSynced <;> simp [initialSync, h]

/-- C2 amended: the next poll cycle is always scheduled at the configured
period clamped to at least 1000 ms, regardless of the cycle outcome; a cycle
whose refresh promise rejects (a synchronous send failure) performs the full
Reset of both state generations, while a cycle whose dump wait merely times out
is swallowed inside refreshState, takes the success path and keeps the
initial-sync flag, so no Reset happens on a poll timeout. -/
theorem c2_reset_and_reschedule (c : Config) (m : SyncMachine)
    (s : SendResult) (p : PollEvent) :
    (syncStateCycle c m s p).delay = max 1000 c.syncPeriod ∧
    (s = .errThrown → (syncStateCycle c m s p).machine = resetState) ∧
    (s = .ok → (syncStateCycle c m s p).machine.isInitialSynced = true) := by
  refine ⟨?_, ?_, ?_⟩
  · cases s <;> cases p <;> rfl
  · intro hs
    subst hs
    cases p <;> rfl
  · intro hs
    subst hs
    cases p <;> simp [syncStateCycle, refreshStateResult, initialSync_synced]

/-- Witness for C2 amended at concrete cycles: a rejected refresh resets the
machine, a timed-out dump keeps the initial-sync flag, and the scheduled delay
is the clamped default period. -/
theorem c2_reset_and_reschedule_witness :
    (syncStateCycle {} syncedMachine .errThrown .timeout).machine = resetState ∧
    (syncStateCycle {} syncedMachine .ok .timeout).machine.isInitialSynced = true ∧
    (syncStateCycle {} syncedMachine .ok .chnUpd).delay = max 1000 1000 :=
  ⟨(c2_reset_and_reschedule {} syncedMachine .errThrown .timeout).2.1 rfl,
    (c2_reset_and_reschedule {} syncedMachine .ok .timeout).2.2 rfl,
    (c2_reset_and_reschedule {} syncedMachine .ok .chnUpd).1⟩

/-- C5 counterexample: when the timeout timer of waitForEvent fires first, the
promise is rejected with the timeout but neither the event subscription nor the
error subscription is removed, against the claim that the timer cancels both. -/
theorem c5_timer_cancels_nothing_counterexample :
    (fireStep waitInit .tm).settled = some .timedOut ∧
    (fireStep waitInit .tm).eventSub = true ∧
    (fireStep waitInit .tm).errorSub = true := by
  refine ⟨rfl, rfl, rfl⟩

theorem fireStep_settled_stable (s : WaitState) (f : Fire) (o : WaitOutcome)
    (h : s.settled = some o) : (fireStep s f).settled = some o := by
  cases f <;> simp only [fireStep] <;> split <;> simp [settleOnce, h]

theorem runFires_settled_stable (fs : List Fire) (s : WaitState) (o : WaitOutcome)
    (h : s.settled = some o) : (runFires s fs).settled = some o := by
  induction fs generalizing s with
  | nil => exact h
  | cons f rest ih => exact ih (fireStep s f) (fireStep_settled_stable s f o h)

theorem fireStep_init_settles (f : Fire) :
    (fireStep waitInit f).settled = some (outcomeOf f) := by
  cases f <;> rfl

/-- C5 amended: each waitForEvent call produces exactly one outcome, the one of
whichever completion source fires first, and later firings never change it;
when the awaited event or the error channel fires first it cancels the other
subscription and the timer, but when the timer fires first the call fails with
the timeout while both subscriptions remain installed (their later firings are
no-op settlements). -/
theorem c5_exactly_one_outcome :
    (∀ (f : Fire) (fs : List Fire),
      (runFires waitInit (f :: fs)).settled = some (outcomeOf f)) ∧
    fireStep waitInit .ev
      = ⟨false, false, false, some .value⟩ ∧
    fireStep waitInit .er
      = ⟨false, false, false, some .errored⟩ ∧
    fireStep waitInit .tm
      = ⟨true, true, false, some .timedOut⟩ := by
  refine ⟨fun f fs => ?_, rfl, rfl, rfl⟩
  exact runFires_settled_stable fs (fireStep waitInit f) (outcomeOf f)
    (fireStep_init_settles f)

theorem checkForChange_nochange (state : StateMap) : ∀ prev : StateMap,
    (∀ p ∈ state, lookupA prev p.1 = some p.2) →
    checkForChange state prev = ([], prev, false) := by
  induction state with
  | nil =>
    intro prev _
    rfl
  | cons q rest ih =>
    intro prev h
    obtain ⟨a, v⟩ := q
    have hp : lookupA prev a = some v := h (a, v) (List.mem_cons_self _ _)
    have hrest := ih prev (fun p hp2 => h p (List.mem_cons_of_mem _ hp2))
    simp [checkForChange, hp, hrest]

theorem lookupA_of_mem (m : StateMap) (p : String × Value)
    (hnd : (m.map Prod.fst).Nodup) (hm : p ∈ m) :
    lookupA m p.1 = some p.2 := by
  induction m with
  | nil => cases hm
  | cons q rest ih =>
    rw [List.map_cons] at hnd
    obtain ⟨hqnotin, hndrest⟩ := List.nodup_cons.mp hnd
    rcases List.mem_cons.mp hm with h | h
    · subst h
      simp [lookupA]
    · have hq : ¬ q.1 = p.1 := by
        intro he
        exact hqnotin (by rw [he]; exact List.mem_map_of_mem Prod.fst h)
      simp [lookupA, hq, ih hndrest h]

theorem checkForChange_single (A : String) (vA : Value) :
    ∀ (state prev : StateMap),
    (state.map Prod.fst).Nodup →
    (∀ p ∈ state, p.1 ≠ A → lookupA prev p.1 = some p.2) →
    lookupA state A = some vA →
    some vA ≠ lookupA prev A →
    checkForChange state prev
      = ([⟨A, lookupA prev A, vA⟩], insertA prev A vA, true) := by
  intro state
  induction state with
  | nil =>
    intro prev _ _ hA _
    simp [lookupA] at hA
  | cons q rest ih =>
    intro prev hnd hagree hA hdiff
    obtain ⟨k, v⟩ := q
    rw [List.map_cons] at hnd
    obtain ⟨hknotin, hndrest⟩ := List.nodup_cons.mp hnd
    by_cases hk : k = A
    · subst hk
      have hv : v = vA := by simpa [lookupA] using hA
      subst hv
      have hrest : checkForChange rest (insertA prev k v)
          = ([], insertA prev k v, false) := by
        apply checkForChange_nochange
        intro p hp
        have hpk : p.1 ≠ k := by
          intro he
          have hmem : p.1 ∈ List.map Prod.fst rest := List.mem_map_of_mem Prod.fst hp
          rw [he] at hmem
          exact hknotin hmem
        rw [lookupA_insertA_ne prev k p.1 v hpk]
        exact hagree p (List.mem_cons_of_mem _ hp) hpk
      simp [checkForChange, hdiff, hrest]
    · have hhead : lookupA prev k = some v :=
        hagree (k, v) (List.mem_cons_self _ _) hk
      have hA2 : lookupA rest A = some vA := by simpa [lookupA, hk] using hA
      have hres := ih prev hndrest
        (fun p hp hpA => hagree p (List.mem_cons_of_mem _ hp) hpA) hA2 hdiff
      simp [checkForChange, hhead, hres]

/-- C6: when exactly one attribute differs by value inequality between the
current and previous snapshots, change detection emits exactly one changed
notification, carrying the attribute with its old and new values, copies the
new value into the previous snapshot, and schedules exactly one deferred
generic updated notification (the final true component), which runs on the
next scheduling turn so listeners see the per-attribute notification first. -/
theorem c6_change_detection (state prev : StateMap) (A : String) (vA : Value)
    (hnd : (state.map Prod.fst).Nodup)
    (hA : lookupA state A = some vA)
    (hdiff : lookupA state A ≠ lookupA prev A)
    (huniq : ∀ b, lookupA state b ≠ lookupA prev b → b = A) :
    checkForChange state prev
      = ([⟨A, lookupA prev A, vA⟩], insertA prev A vA, true) := by
  apply checkForChange_single A vA state prev hnd ?_ hA ?_
  · intro p hp hpA
    have h1 : lookupA state p.1 = some p.2 := lookupA_of_mem state p hnd hp
    by_cases he : lookupA state p.1 = lookupA prev p.1
    · rw [← he]
      exact h1
    · exact absurd (huniq p.1 he) hpA
  · rw [← hA]
    exact hdiff

/-- Witness for C6 at a concrete transition: the snapshot gains the attribute
onoff with value 1 over an empty previous snapshot, producing exactly one
changed notification followed by one deferred updated notification. -/
theorem c6_change_detection_witness :
    checkForChange [("onoff", 1)] []
      = ([⟨"onoff", none, 1⟩], [("onoff", 1)], true) := by
  have huniq : ∀ b, lookupA [("onoff", 1)] b ≠ lookupA [] b → b = "onoff" := by
    intro b hb
    by_cases h1 : b = "onoff"
    · exact h1
    · exfalso
      apply hb
      have hx : ¬ "onoff" = b := fun he => h1 he.symm
      simp [lookupA, hx]
  exact c6_change_detection [("onoff", 1)] [] "onoff" 1 (by decide) (by decide)
    (by decide) huniq

end MHRCWMP1Spec
